import Mathlib

/-!
Shallow embedding of the dynamic mutual-TLS configuration subsystem of
`pkg/util/webhooks/tls.go` (package `webhooks`).

External collaborators (Go standard library `crypto/tls` and `crypto/x509`,
the certificate manager `certificate.Manager`, the CA manager
`ClientCAManager`, and the cluster configuration provider
`virtconfig.ClusterConfig`) are modelled at their interface boundary:

* An X.509 certificate is abstracted to the data this subsystem inspects:
  its subject common name, an identifier of the key it certifies, an
  identifier of its issuer's key, and its extended key usages.
* Raw presented bytes (`[]byte` entries of a peer chain) are abstracted to
  their parse outcome: either a well-formed certificate or a malformed blob
  carrying a parse-error message; `parseCertificate` models
  `x509.ParseCertificate` by cases.
* `Certificate.Verify` models `x509.Certificate.Verify`: the leaf must chain
  to a root of the trust pool through the supplied intermediate pool via
  issuer/subject key links, and must be acceptable for one of the requested
  extended key usages.  The search is fuel-bounded by the number of
  intermediates, making it executable and decidable.
* The managers are modelled by their point-in-time snapshot answers, so a
  theorem quantifying over manager values covers every per-handshake
  outcome of `Current()` / `GetCurrent()`.
* Go `nil` pointers (`*x509.CertPool`, `*tls.Certificate`, `*v1.KubeVirt`)
  become `Option`.
-/

namespace Webhooks

/-- Extended key usage, modelling `x509.ExtKeyUsage` restricted to the two
values this subsystem uses (`x509.ExtKeyUsageClientAuth` and
`x509.ExtKeyUsageServerAuth`). -/
inductive ExtKeyUsage where
  | clientAuth
  | serverAuth
deriving DecidableEq, Repr

/-- Abstraction of an `x509.Certificate`: the fields this subsystem reads or
that chain verification depends on.  `subjectKey` and `issuerKey` are
abstract identifiers of the certified key and of the signer's key: a
certificate `p` can act as the parent of `c` in a chain exactly when
`p.subjectKey = c.issuerKey`. -/
structure Certificate where
  commonName : String
  subjectKey : Nat
  issuerKey : Nat
  eku : List ExtKeyUsage
deriving DecidableEq, Repr

/-- A raw certificate entry of a presented peer chain (`[]byte` in Go),
abstracted to its parse outcome. -/
inductive RawCert where
  | wellFormed (c : Certificate)
  | malformed (msg : String)
deriving DecidableEq, Repr

/-- Models `x509.ParseCertificate`. -/
def parseCertificate : RawCert → Except String Certificate
  | RawCert.wellFormed c => Except.ok c
  | RawCert.malformed msg => Except.error msg

/-- Models `x509.CertPool`. -/
structure CertPool where
  certs : List Certificate
deriving DecidableEq, Repr

/-- Models `x509.NewCertPool()`. -/
def NewCertPool : CertPool := { certs := [] }

/-- Models `(*x509.CertPool).AddCert`. -/
def CertPool.AddCert (p : CertPool) (c : Certificate) : CertPool :=
  { certs := p.certs ++ [c] }

/-- The certificates of a possibly-nil (`Option`) pool; a nil pool
contributes no certificates. -/
def certsOf : Option CertPool → List Certificate
  | none => []
  | some p => p.certs

/-- Models `x509.VerifyOptions` restricted to the fields `verifyPeerCert`
sets: `Roots`, `Intermediates` and `KeyUsages`. -/
structure VerifyOptions where
  Roots : Option CertPool
  Intermediates : Option CertPool
  KeyUsages : List ExtKeyUsage

/-- Fuel-bounded chain search: `c` chains to a root if some root's subject
key is `c`'s issuer key, or (with fuel left) some intermediate is a parent
of `c` and itself chains to a root. -/
def chainToRoot (roots inter : List Certificate) : Nat → Certificate → Bool
  | 0, c => roots.any (fun r => r.subjectKey == c.issuerKey)
  | fuel + 1, c =>
    roots.any (fun r => r.subjectKey == c.issuerKey) ||
      inter.any (fun i => i.subjectKey == c.issuerKey && chainToRoot roots inter fuel i)

/-- Models `(*x509.Certificate).Verify`: succeeds when the certificate is
acceptable for one of the requested extended key usages and chains to a
root of `Roots` through `Intermediates`.  Only the error/success outcome is
modelled (the Go method also returns the chains, which `verifyPeerCert`
discards).  Fuel `inter.length` suffices because a loop-free chain visits
each intermediate at most once. -/
def Certificate.Verify (c : Certificate) (opts : VerifyOptions) : Except String Unit :=
  if !(opts.KeyUsages.isEmpty || opts.KeyUsages.any (fun u => c.eku.contains u)) then
    Except.error "x509: certificate specifies an incompatible key usage"
  else
    let roots := certsOf opts.Roots
    let inter := certsOf opts.Intermediates
    if chainToRoot roots inter inter.length c then Except.ok ()
    else Except.error "x509: certificate signed by unknown authority"

/-- Translation of `createIntermediatePool` (tls.go lines 257-270): only in
externally-managed mode is a pool assembled from the presented
intermediates; entries that fail to parse are skipped (the Go code logs a
warning and continues). -/
def createIntermediatePool (externallyManaged : Bool)
    (rawIntermediates : List RawCert) : Option CertPool :=
  if externallyManaged then
    some (rawIntermediates.foldl (fun intermediatePool rawIntermediate =>
      match parseCertificate rawIntermediate with
      | Except.error _ => intermediatePool
      | Except.ok c => intermediatePool.AddCert c) NewCertPool)
  else
    none

/-- Translation of `verifyPeerCert` (tls.go lines 226-255). -/
def verifyPeerCert (rawCerts : List RawCert) (externallyManaged : Bool)
    (certPool : Option CertPool) (usage : ExtKeyUsage) (commonName : String) :
    Except String Unit :=
  match rawCerts with
  | [] => Except.error "no client certificate provided."
  | rawPeer :: rawIntermediates =>
    match parseCertificate rawPeer with
    | Except.error e => Except.error ("failed to parse peer certificate: " ++ e)
    | Except.ok c =>
      let intermediatePool := createIntermediatePool externallyManaged rawIntermediates
      match c.Verify { Roots := certPool, Intermediates := intermediatePool,
                       KeyUsages := [usage] } with
      | Except.error e => Except.error ("could not verify peer certificate: " ++ e)
      | Except.ok _ =>
        let fullCommonName := "kubevirt.io:system:" ++ commonName ++ ":virt-handler"
        if !externallyManaged && (c.commonName != fullCommonName) then
          Except.error ("common name is invalid, expected " ++ fullCommonName ++
            ", but got " ++ c.commonName)
        else
          Except.ok ()

/-- Models the constant `v1.VersionTLS10` of kubevirt.io/api/core/v1. -/
def VersionTLS10 : String := "VersionTLS10"

/-- Models the constant `v1.VersionTLS11`. -/
def VersionTLS11 : String := "VersionTLS11"

/-- Models the constant `v1.VersionTLS12`. -/
def VersionTLS12 : String := "VersionTLS12"

/-- Models the constant `v1.VersionTLS13`. -/
def VersionTLS13 : String := "VersionTLS13"

/-- Models `tls.VersionTLS10` (0x0301). -/
def tlsVersionTLS10 : Nat := 769

/-- Models `tls.VersionTLS11` (0x0302). -/
def tlsVersionTLS11 : Nat := 770

/-- Models `tls.VersionTLS12` (0x0303). -/
def tlsVersionTLS12 : Nat := 771

/-- Models `tls.VersionTLS13` (0x0304). -/
def tlsVersionTLS13 : Nat := 772

/-- Translation of `TlsVersion` (tls.go lines 211-224): the Go `switch`
over the four named protocol versions with default `tls.VersionTLS12`. -/
def TlsVersion (version : String) : Nat :=
  if version == VersionTLS10 then tlsVersionTLS10
  else if version == VersionTLS11 then tlsVersionTLS11
  else if version == VersionTLS12 then tlsVersionTLS12
  else if version == VersionTLS13 then tlsVersionTLS13
  else tlsVersionTLS12

/-- Models `tls.CipherSuite`: the name and identifier fields used by
`CipherSuiteIds`. -/
structure CipherSuite where
  Name : String
  ID : Nat
deriving DecidableEq, Repr

/-- Models the package-level `cipherSuites = tls.CipherSuites()`: the Go
runtime's catalog of secure cipher suites (names and identifiers as in the
Go standard library `crypto/tls`). -/
def cipherSuites : List CipherSuite :=
  [ { Name := "TLS_RSA_WITH_AES_128_CBC_SHA", ID := 47 },
    { Name := "TLS_RSA_WITH_AES_256_CBC_SHA", ID := 53 },
    { Name := "TLS_RSA_WITH_AES_128_GCM_SHA256", ID := 156 },
    { Name := "TLS_RSA_WITH_AES_256_GCM_SHA384", ID := 157 },
    { Name := "TLS_AES_128_GCM_SHA256", ID := 4865 },
    { Name := "TLS_AES_256_GCM_SHA384", ID := 4866 },
    { Name := "TLS_CHACHA20_POLY1305_SHA256", ID := 4867 },
    { Name := "TLS_ECDHE_ECDSA_WITH_AES_128_CBC_SHA", ID := 49161 },
    { Name := "TLS_ECDHE_ECDSA_WITH_AES_256_CBC_SHA", ID := 49162 },
    { Name := "TLS_ECDHE_RSA_WITH_AES_128_CBC_SHA", ID := 49171 },
    { Name := "TLS_ECDHE_RSA_WITH_AES_256_CBC_SHA", ID := 49172 },
    { Name := "TLS_ECDHE_ECDSA_WITH_AES_128_GCM_SHA256", ID := 49195 },
    { Name := "TLS_ECDHE_ECDSA_WITH_AES_256_GCM_SHA384", ID := 49196 },
    { Name := "TLS_ECDHE_RSA_WITH_AES_128_GCM_SHA256", ID := 49199 },
    { Name := "TLS_ECDHE_RSA_WITH_AES_256_GCM_SHA384", ID := 49200 },
    { Name := "TLS_ECDHE_RSA_WITH_CHACHA20_POLY1305_SHA256", ID := 52392 },
    { Name := "TLS_ECDHE_ECDSA_WITH_CHACHA20_POLY1305_SHA256", ID := 52393 } ]

/-- Models the package-level `insecureCipherSuites = tls.InsecureCipherSuites()`:
the Go runtime's catalog of legacy/insecure cipher suites. -/
def insecureCipherSuites : List CipherSuite :=
  [ { Name := "TLS_RSA_WITH_RC4_128_SHA", ID := 5 },
    { Name := "TLS_RSA_WITH_3DES_EDE_CBC_SHA", ID := 10 },
    { Name := "TLS_RSA_WITH_AES_128_CBC_SHA256", ID := 60 },
    { Name := "TLS_ECDHE_ECDSA_WITH_RC4_128_SHA", ID := 49159 },
    { Name := "TLS_ECDHE_ECDSA_WITH_AES_128_CBC_SHA256", ID := 49187 },
    { Name := "TLS_ECDHE_RSA_WITH_RC4_128_SHA", ID := 49169 },
    { Name := "TLS_ECDHE_RSA_WITH_3DES_EDE_CBC_SHA", ID := 49170 },
    { Name := "TLS_ECDHE_RSA_WITH_AES_128_CBC_SHA256", ID := 49191 } ]

/-- The `idByName` map built at the top of `CipherSuiteIds` (tls.go lines
193-199): the Go map inserts the secure catalog, then the insecure one.
The two catalogs have pairwise distinct names (`idByName_keys_nodup`
below), so an association list searched front to back realizes the same
finite map. -/
def idByName : List (String × Nat) :=
  (cipherSuites ++ insecureCipherSuites).map (fun s => (s.Name, s.ID))

/-- Association-list lookup, modelling Go's `id, ok := idByName[name]`. -/
def lookupId (m : List (String × Nat)) (k : String) : Option Nat :=
  (m.find? (fun p => p.1 == k)).map (fun p => p.2)

/-- Translation of `CipherSuiteIds` (tls.go lines 192-207): the Go loop
appends the identifier of each name found in the map and drops the rest. -/
def CipherSuiteIds (names : List String) : List Nat :=
  names.foldl (fun ids name =>
    match lookupId idByName name with
    | some id => ids ++ [id]
    | none => ids) []

/-- The names of the two cipher catalogs are pairwise distinct, so the
association list `idByName` realizes the Go map faithfully. -/
theorem idByName_keys_nodup : (idByName.map Prod.fst).Nodup := by decide

/-- Models `tls.Certificate` (a leaf identity: key pair plus certificate),
opaque to this subsystem, abstracted to an identifier. -/
structure TLSCertificate where
  id : Nat
deriving DecidableEq, Repr

/-- Models `tls.ClientAuthType`. -/
inductive ClientAuthType where
  | NoClientCert
  | RequestClientCert
  | RequireAnyClientCert
  | VerifyClientCertIfGiven
  | RequireAndVerifyClientCert
deriving DecidableEq, Repr

/-- Models `certificate.Manager` by its point-in-time answer: `Current`
is the value `Current()` returns at the handshake under consideration
(`none` models a nil `*tls.Certificate`, i.e. "not ready"). -/
structure CertManager where
  Current : Option TLSCertificate

/-- Models `ClientCAManager` by its point-in-time answer: `GetCurrent` is
the `( *x509.CertPool, error)` pair `GetCurrent()` returns at the handshake
under consideration — either an error, or a possibly-nil pool. -/
structure ClientCAManager where
  GetCurrent : Except String (Option CertPool)

/-- Models `v1.TLSConfiguration` of kubevirt.io/api/core/v1: the minimum
TLS version label and the cipher name list (a nil Go slice is the empty
list). -/
structure TLSConfiguration where
  MinTLSVersion : String
  Ciphers : List String
deriving DecidableEq, Repr

/-- Models the `v1.KubeVirt` custom resource down the one access path this
subsystem reads: `kv.Spec.Configuration.TLSConfiguration` (nil becomes
`none`). -/
structure KubeVirt where
  tlsConfiguration : Option TLSConfiguration

/-- Models `virtconfig.ClusterConfig` by its point-in-time answer:
`GetConfigFromKubeVirtCR` is the (possibly nil) `*v1.KubeVirt` the provider
returns at the handshake under consideration. -/
structure ClusterConfig where
  GetConfigFromKubeVirtCR : Option KubeVirt

/-- Models `tls.Config` without the `GetConfigForClient` field (see
`Config` below).  Every callback of the source that ignores its
`ClientHelloInfo` / `CertificateRequestInfo` argument is modelled by its
result for the manager snapshots in scope; `VerifyPeerCertificate`, whose
result genuinely depends on the presented raw chain, stays a function (its
second Go argument, `verifiedChains`, is ignored by the source and
omitted).  Unset Go fields keep their zero values as defaults.
`BuildNameToCertificate` calls are no-ops for this model (they only fill a
deprecated lookup map). -/
structure BaseConfig where
  InsecureSkipVerify : Bool := false
  MinVersion : Nat := 0
  CipherSuites : List Nat := []
  Certificates : List TLSCertificate := []
  ClientCAs : Option CertPool := none
  ClientAuth : ClientAuthType := ClientAuthType.NoClientCert
  GetCertificate : Option (Except String TLSCertificate) := none
  GetClientCertificate : Option (Except String TLSCertificate) := none
  VerifyPeerCertificate : Option (List RawCert → Except String Unit) := none

/-- Models `tls.Config`.  In Go, `tls.Config` is one type; the per-client
configurations produced by the `GetConfigForClient` callbacks of this
source never set `GetConfigForClient` themselves, so they are typed as
`BaseConfig`, stratifying the one Go type into two Lean ones. -/
structure Config extends BaseConfig where
  GetConfigForClient : Option (Except String BaseConfig) := none

/-- The constant `noSrvCertMessage` (tls.go line 17). -/
def noSrvCertMessage : String :=
  "No server certificate, server is not yet ready to receive traffic"

/-- Translation of `getTLSConfiguration` (tls.go lines 179-190): start from
the hard-coded default (minimum version 1.2, nil cipher list) and replace
it with the custom resource's TLS configuration when the resource exists
and carries one. -/
def getTLSConfiguration (clusterConfig : ClusterConfig) : TLSConfiguration :=
  let tlsConfiguration : TLSConfiguration :=
    { MinTLSVersion := VersionTLS12, Ciphers := [] }
  match clusterConfig.GetConfigFromKubeVirtCR with
  | some kv =>
    match kv.tlsConfiguration with
    | some t => t
    | none => tlsConfiguration
  | none => tlsConfiguration

/-- Translation of `SetupPromTLS` (tls.go lines 24-56). -/
def SetupPromTLS (certManager : CertManager) (clusterConfig : ClusterConfig) :
    Config :=
  { GetCertificate := some (
      match certManager.Current with
      | none => Except.error noSrvCertMessage
      | some cert => Except.ok cert),
    GetConfigForClient := some (
      match certManager.Current with
      | none => Except.error "failed to get a certificate"
      | some crt =>
        let tlsConfig := getTLSConfiguration clusterConfig
        Except.ok
          { CipherSuites := CipherSuiteIds tlsConfig.Ciphers,
            MinVersion := TlsVersion tlsConfig.MinTLSVersion,
            Certificates := [crt],
            ClientAuth := ClientAuthType.VerifyClientCertIfGiven }) }

/-- Translation of `SetupTLSWithCertManager` (tls.go lines 57-95). -/
def SetupTLSWithCertManager (caManager : ClientCAManager)
    (certManager : CertManager) (clientAuth : ClientAuthType)
    (clusterConfig : ClusterConfig) : Config :=
  { GetCertificate := some (
      match certManager.Current with
      | none => Except.error noSrvCertMessage
      | some cert => Except.ok cert),
    GetConfigForClient := some (
      match certManager.Current with
      | none => Except.error noSrvCertMessage
      | some cert =>
        match caManager.GetCurrent with
        | Except.error e => Except.error e
        | Except.ok clientCAPool =>
          let tlsConfig := getTLSConfiguration clusterConfig
          Except.ok
            { CipherSuites := CipherSuiteIds tlsConfig.Ciphers,
              MinVersion := TlsVersion tlsConfig.MinTLSVersion,
              Certificates := [cert],
              ClientCAs := clientCAPool,
              ClientAuth := clientAuth }) }

/-- Translation of `SetupTLSForVirtHandlerServer` (tls.go lines 97-145):
the against-the-grain order of the Go callback is kept — trust pool first
(error, then nil check), then current certificate, then the per-client
configuration with `InsecureSkipVerify` and the nested `verifyPeerCert`
callback (usage client-auth, role "client"). -/
def SetupTLSForVirtHandlerServer (caManager : ClientCAManager)
    (certManager : CertManager) (externallyManaged : Bool)
    (clusterConfig : ClusterConfig) : Config :=
  { InsecureSkipVerify := true,
    GetCertificate := some (
      match certManager.Current with
      | none => Except.error noSrvCertMessage
      | some cert => Except.ok cert),
    GetConfigForClient := some (
      match caManager.GetCurrent with
      | Except.error e => Except.error e
      | Except.ok none =>
        Except.error "No ca certificate, server is not yet ready to receive traffic"
      | Except.ok (some certPool) =>
        match certManager.Current with
        | none => Except.error noSrvCertMessage
        | some cert =>
          let tlsConfig := getTLSConfiguration clusterConfig
          Except.ok
            { CipherSuites := CipherSuiteIds tlsConfig.Ciphers,
              MinVersion := TlsVersion tlsConfig.MinTLSVersion,
              ClientCAs := some certPool,
              GetCertificate := some (Except.ok cert),
              InsecureSkipVerify := true,
              VerifyPeerCertificate := some (fun rawCerts =>
                verifyPeerCert rawCerts externallyManaged (some certPool)
                  ExtKeyUsage.clientAuth "client"),
              ClientAuth := ClientAuthType.RequireAndVerifyClientCert }) }

/-- Translation of `SetupTLSForVirtHandlerClients` (tls.go lines 147-177):
`InsecureSkipVerify` with the `verifyPeerCert` callback (usage server-auth,
role "node"); the callback itself fetches the trust pool and propagates a
trust-accessor error. -/
def SetupTLSForVirtHandlerClients (caManager : ClientCAManager)
    (certManager : CertManager) (externallyManaged : Bool) : Config :=
  { InsecureSkipVerify := true,
    ClientAuth := ClientAuthType.RequireAndVerifyClientCert,
    GetCertificate := some (
      match certManager.Current with
      | none => Except.error noSrvCertMessage
      | some cert => Except.ok cert),
    GetClientCertificate := some (
      match certManager.Current with
      | none =>
        Except.error "No client certificate, client is not yet ready to talk to the server"
      | some cert => Except.ok cert),
    VerifyPeerCertificate := some (fun rawCerts =>
      match caManager.GetCurrent with
      | Except.error e => Except.error e
      | Except.ok certPool =>
        verifyPeerCert rawCerts externallyManaged certPool
          ExtKeyUsage.serverAuth "node") }

/-! Concrete fixtures used to instantiate the theorems below. -/

/-- A self-signed trusted root. -/
def rootCA : Certificate :=
  { commonName := "kubevirt-ca", subjectKey := 0, issuerKey := 0, eku := [] }

/-- An intermediate CA issued under `rootCA` but not itself trusted. -/
def interCA : Certificate :=
  { commonName := "external-intermediate", subjectKey := 1, issuerKey := 0, eku := [] }

/-- A leaf with the expected virt-handler client name, issued under
`interCA` (so it reaches `rootCA` only through the intermediate). -/
def leafViaIntermediate : Certificate :=
  { commonName := "kubevirt.io:system:client:virt-handler", subjectKey := 2,
    issuerKey := 1, eku := [ExtKeyUsage.clientAuth] }

/-- A leaf issued directly under `rootCA` whose common name is not the
expected virt-handler name. -/
def leafBadName : Certificate :=
  { commonName := "impostor", subjectKey := 3, issuerKey := 0,
    eku := [ExtKeyUsage.clientAuth, ExtKeyUsage.serverAuth] }

/-- The trust pool holding only `rootCA`. -/
def trustPool : CertPool := { certs := [rootCA] }

/-- A ready identity snapshot. -/
def someCertManager : CertManager := { Current := some { id := 7 } }

/-- A not-ready identity snapshot. -/
def notReadyCertManager : CertManager := { Current := none }

/-- A trust snapshot answering with `trustPool`. -/
def readyCAManager : ClientCAManager := { GetCurrent := Except.ok (some trustPool) }

/-- A trust snapshot answering with an error. -/
def errCAManager : ClientCAManager := { GetCurrent := Except.error "ca failure" }

/-- A trust snapshot answering with a nil pool and no error. -/
def nilCAManager : ClientCAManager := { GetCurrent := Except.ok none }

/-- A cluster-configuration snapshot with no custom resource. -/
def emptyClusterConfig : ClusterConfig := { GetConfigFromKubeVirtCR := none }

/-- The per-client configuration `SetupTLSForVirtHandlerServer` produces for
the fixture snapshots (`readyCAManager`, `someCertManager`, internally
managed, empty cluster config). -/
def serverInnerConfig : BaseConfig :=
  { CipherSuites := CipherSuiteIds [],
    MinVersion := TlsVersion VersionTLS12,
    ClientCAs := some trustPool,
    GetCertificate := some (Except.ok { id := 7 }),
    InsecureSkipVerify := true,
    VerifyPeerCertificate := some (fun rawCerts =>
      verifyPeerCert rawCerts false (some trustPool) ExtKeyUsage.clientAuth "client"),
    ClientAuth := ClientAuthType.RequireAndVerifyClientCert }

/-! Helper lemmas. -/

/-- The accumulating append loop of `CipherSuiteIds` is a filter-map. -/
theorem foldl_lookup_eq_filterMap (g : String → Option Nat) :
    ∀ (names : List String) (acc : List Nat),
      names.foldl (fun ids name =>
        match g name with
        | some id => ids ++ [id]
        | none => ids) acc = acc ++ names.filterMap g := by
  intro names
  induction names with
  | nil => intro acc; simp
  | cons n ns ih =>
    intro acc
    cases h : g n with
    | none => simp [List.foldl_cons, h, List.filterMap_cons, ih]
    | some id => simp [List.foldl_cons, h, List.filterMap_cons, ih]

/-- Association-list lookup misses when no key matches. -/
theorem lookupId_eq_none_of_forall_ne (k : String) :
    ∀ m : List (String × Nat), (∀ p ∈ m, p.1 ≠ k) → lookupId m k = none := by
  intro m
  induction m with
  | nil => intro _; rfl
  | cons p ps ih =>
    intro h
    have hp : (p.1 == k) = false := by
      simp only [beq_eq_false_iff_ne, ne_eq]
      exact h p (List.mem_cons_self _ _)
    simp only [lookupId, List.find?_cons, hp]
    exact ih (fun q hq => h q (List.mem_cons_of_mem _ hq))

/-- Skipping a malformed entry leaves the intermediate-pool fold unchanged. -/
theorem intermediatePool_fold_skips_malformed (bad : RawCert) (e : String)
    (hbad : parseCertificate bad = Except.error e) :
    ∀ (pre post : List RawCert) (acc : CertPool),
      (pre ++ bad :: post).foldl (fun intermediatePool rawIntermediate =>
        match parseCertificate rawIntermediate with
        | Except.error _ => intermediatePool
        | Except.ok c => intermediatePool.AddCert c) acc =
      (pre ++ post).foldl (fun intermediatePool rawIntermediate =>
        match parseCertificate rawIntermediate with
        | Except.error _ => intermediatePool
        | Except.ok c => intermediatePool.AddCert c) acc := by
  intro pre
  induction pre with
  | nil =>
    intro post acc
    simp [List.foldl_cons, hbad]
  | cons q qs ih =>
    intro post acc
    simp only [List.cons_append, List.foldl_cons]
    exact ih post _

/-! The claims. -/

/-- C1: Both internal peer-role configuration builders disable the
runtime's built-in certificate/hostname verification (`InsecureSkipVerify`)
and install the custom `verifyPeerCert` callback — extended key usage
client-auth and role "client" on the server side (in the per-client
configuration its `GetConfigForClient` callback produces), extended key
usage server-auth and role "node" on the client side — so no peer-role
configuration used for certificate checking leaves the runtime check off
without the custom verifier installed. -/
theorem peer_role_configs_custom_verifier (caManager : ClientCAManager)
    (certManager : CertManager) (externallyManaged : Bool)
    (clusterConfig : ClusterConfig) :
    (SetupTLSForVirtHandlerServer caManager certManager externallyManaged
        clusterConfig).InsecureSkipVerify = true ∧
    (∀ c, (SetupTLSForVirtHandlerServer caManager certManager externallyManaged
        clusterConfig).GetConfigForClient = some (Except.ok c) →
      c.InsecureSkipVerify = true ∧
      ∃ certPool, caManager.GetCurrent = Except.ok (some certPool) ∧
        c.VerifyPeerCertificate = some (fun rawCerts =>
          verifyPeerCert rawCerts externallyManaged (some certPool)
            ExtKeyUsage.clientAuth "client")) ∧
    (SetupTLSForVirtHandlerClients caManager certManager
        externallyManaged).InsecureSkipVerify = true ∧
    (SetupTLSForVirtHandlerClients caManager certManager
        externallyManaged).VerifyPeerCertificate = some (fun rawCerts =>
      match caManager.GetCurrent with
      | Except.error e => Except.error e
      | Except.ok certPool =>
        verifyPeerCert rawCerts externallyManaged certPool
          ExtKeyUsage.serverAuth "node") := by
  refine ⟨rfl, ?_, rfl, rfl⟩
  intro c h
  simp only [SetupTLSForVirtHandlerServer] at h
  rcases hca : caManager.GetCurrent with e | pool
  · rw [hca] at h
    simp at h
  · rcases pool with _ | certPool
    · rw [hca] at h
      simp at h
    · rw [hca] at h
      rcases hcur : certManager.Current with _ | cert
      · rw [hcur] at h
        simp at h
      · rw [hcur] at h
        simp only [Option.some.injEq, Except.ok.injEq] at h
        subst h
        exact ⟨rfl, certPool, rfl, rfl⟩

/-- C1 witness: for the ready fixture snapshots the server's per-client
configuration exists and carries the custom verifier with the runtime
check disabled. -/
theorem peer_role_configs_custom_verifier_witness :
    serverInnerConfig.InsecureSkipVerify = true :=
  ((peer_role_configs_custom_verifier readyCAManager someCertManager false
      emptyClusterConfig).2.1 serverInnerConfig rfl).1

/-- C2: for a chain whose leaf parses and verifies cryptographically, when
the externally-managed flag is false the Peer Verifier additionally
requires the leaf's common name to equal
"kubevirt.io:system:&lt;role&gt;:virt-handler" and returns the name-mismatch
failure otherwise. -/
theorem verifyPeerCert_name_mismatch (rawPeer : RawCert) (rest : List RawCert)
    (certPool : Option CertPool) (usage : ExtKeyUsage) (role : String)
    (c : Certificate)
    (hparse : parseCertificate rawPeer = Except.ok c)
    (hchain : c.Verify { Roots := certPool,
                         Intermediates := createIntermediatePool false rest,
                         KeyUsages := [usage] } = Except.ok ())
    (hname : c.commonName ≠ "kubevirt.io:system:" ++ role ++ ":virt-handler") :
    verifyPeerCert (rawPeer :: rest) false certPool usage role =
      Except.error ("common name is invalid, expected " ++
        ("kubevirt.io:system:" ++ role ++ ":virt-handler") ++ ", but got " ++
        c.commonName) := by
  simp only [verifyPeerCert, hparse]
  rw [hchain]
  simp [hname]

/-- C2 witness: a leaf with common name "impostor" signed directly by the
trusted root verifies cryptographically yet is rejected for the "client"
role. -/
theorem verifyPeerCert_name_mismatch_witness :
    verifyPeerCert [RawCert.wellFormed leafBadName] false (some trustPool)
        ExtKeyUsage.clientAuth "client" =
      Except.error ("common name is invalid, expected " ++
        ("kubevirt.io:system:" ++ "client" ++ ":virt-handler") ++ ", but got " ++
        leafBadName.commonName) :=
  verifyPeerCert_name_mismatch (RawCert.wellFormed leafBadName) []
    (some trustPool) ExtKeyUsage.clientAuth "client" leafBadName rfl rfl
    (by decide)

/-- C3: in externally-managed mode the Peer Verifier builds the
intermediate pool from the presented tail (entries that fail to parse are
skipped, not fatal), verifies the leaf through it, performs no common-name
check — so it succeeds for an arbitrary common name whenever the chain is
valid; with the flag false no intermediate pool is built. -/
theorem verifyPeerCert_externally_managed (rawPeer : RawCert)
    (rest : List RawCert) (certPool : Option CertPool) (usage : ExtKeyUsage)
    (role : String) (c : Certificate)
    (hparse : parseCertificate rawPeer = Except.ok c)
    (hchain : c.Verify { Roots := certPool,
                         Intermediates := createIntermediatePool true rest,
                         KeyUsages := [usage] } = Except.ok ()) :
    verifyPeerCert (rawPeer :: rest) true certPool usage role = Except.ok () ∧
    (∀ rawIntermediates, createIntermediatePool false rawIntermediates = none) ∧
    (∀ (pre post : List RawCert) (bad : RawCert) (e : String),
      parseCertificate bad = Except.error e →
      createIntermediatePool true (pre ++ bad :: post) =
        createIntermediatePool true (pre ++ post)) := by
  refine ⟨?_, fun _ => rfl, ?_⟩
  · simp only [verifyPeerCert, hparse]
    rw [hchain]
    simp
  · intro pre post bad e hbad
    simp only [createIntermediatePool, if_true]
    rw [intermediatePool_fold_skips_malformed bad e hbad]

/-- C3 witness: a leaf reaching the root only through a presented
intermediate verifies in externally-managed mode even alongside a
malformed presented entry, and the malformed entry is skipped when the
pool is assembled. -/
theorem verifyPeerCert_externally_managed_witness :
    verifyPeerCert [RawCert.wellFormed leafViaIntermediate,
        RawCert.wellFormed interCA, RawCert.malformed "junk"] true
        (some trustPool) ExtKeyUsage.clientAuth "client" = Except.ok () ∧
    createIntermediatePool true
        ([RawCert.wellFormed interCA] ++ RawCert.malformed "junk" :: []) =
      createIntermediatePool true ([RawCert.wellFormed interCA] ++ []) :=
  ⟨(verifyPeerCert_externally_managed (RawCert.wellFormed leafViaIntermediate)
      [RawCert.wellFormed interCA, RawCert.malformed "junk"] (some trustPool)
      ExtKeyUsage.clientAuth "client" leafViaIntermediate rfl rfl).1,
   (verifyPeerCert_externally_managed (RawCert.wellFormed leafViaIntermediate)
      [RawCert.wellFormed interCA, RawCert.malformed "junk"] (some trustPool)
      ExtKeyUsage.clientAuth "client" leafViaIntermediate rfl rfl).2.2
      [RawCert.wellFormed interCA] [] (RawCert.malformed "junk") "junk" rfl⟩

/-- C4: the peer-role server's dynamic per-client callback propagates a
trust-accessor error and refuses; a nil pool with no error is refused with
the distinct not-ready message. -/
theorem virtHandlerServer_trust_refusal (caManager : ClientCAManager)
    (certManager : CertManager) (externallyManaged : Bool)
    (clusterConfig : ClusterConfig) :
    (∀ e, caManager.GetCurrent = Except.error e →
      (SetupTLSForVirtHandlerServer caManager certManager externallyManaged
          clusterConfig).GetConfigForClient = some (Except.error e)) ∧
    (caManager.GetCurrent = Except.ok none →
      (SetupTLSForVirtHandlerServer caManager certManager externallyManaged
          clusterConfig).GetConfigForClient = some (Except.error
            "No ca certificate, server is not yet ready to receive traffic")) := by
  constructor
  · intro e h
    simp [SetupTLSForVirtHandlerServer, h]
  · intro h
    simp [SetupTLSForVirtHandlerServer, h]

/-- C4 witness: the two refusals at concrete snapshots. -/
theorem virtHandlerServer_trust_refusal_witness :
    (SetupTLSForVirtHandlerServer errCAManager someCertManager false
        emptyClusterConfig).GetConfigForClient =
      some (Except.error "ca failure") ∧
    (SetupTLSForVirtHandlerServer nilCAManager someCertManager false
        emptyClusterConfig).GetConfigForClient =
      some (Except.error
        "No ca certificate, server is not yet ready to receive traffic") :=
  ⟨(virtHandlerServer_trust_refusal errCAManager someCertManager false
      emptyClusterConfig).1 "ca failure" rfl,
   (virtHandlerServer_trust_refusal nilCAManager someCertManager false
      emptyClusterConfig).2 rfl⟩

/-- C5: when the identity accessor answers "not ready" (nil certificate),
the certificate-selection callback of every one of the four builders
returns the "server is not yet ready" error — never a nil certificate as a
success. -/
theorem notReady_certificate_selection (caManager : ClientCAManager)
    (certManager : CertManager) (clientAuth : ClientAuthType)
    (externallyManaged : Bool) (clusterConfig : ClusterConfig)
    (h : certManager.Current = none) :
    (SetupPromTLS certManager clusterConfig).GetCertificate =
      some (Except.error noSrvCertMessage) ∧
    (SetupTLSWithCertManager caManager certManager clientAuth
        clusterConfig).GetCertificate = some (Except.error noSrvCertMessage) ∧
    (SetupTLSForVirtHandlerServer caManager certManager externallyManaged
        clusterConfig).GetCertificate = some (Except.error noSrvCertMessage) ∧
    (SetupTLSForVirtHandlerClients caManager certManager
        externallyManaged).GetCertificate =
      some (Except.error noSrvCertMessage) := by
  refine ⟨?_, ?_, ?_, ?_⟩ <;>
    simp [SetupPromTLS, SetupTLSWithCertManager, SetupTLSForVirtHandlerServer,
      SetupTLSForVirtHandlerClients, h]

/-- C5 witness: the four refusals at a concrete not-ready snapshot. -/
theorem notReady_certificate_selection_witness :
    (SetupPromTLS notReadyCertManager emptyClusterConfig).GetCertificate =
      some (Except.error noSrvCertMessage) ∧
    (SetupTLSWithCertManager readyCAManager notReadyCertManager
        ClientAuthType.NoClientCert emptyClusterConfig).GetCertificate =
      some (Except.error noSrvCertMessage) ∧
    (SetupTLSForVirtHandlerServer readyCAManager notReadyCertManager false
        emptyClusterConfig).GetCertificate =
      some (Except.error noSrvCertMessage) ∧
    (SetupTLSForVirtHandlerClients readyCAManager notReadyCertManager
        false).GetCertificate = some (Except.error noSrvCertMessage) :=
  notReady_certificate_selection readyCAManager notReadyCertManager
    ClientAuthType.NoClientCert false emptyClusterConfig rfl

/-- C6: an empty presented chain fails immediately with the
"no client certificate provided." outcome, regardless of the flag, pool,
usage or role. -/
theorem verifyPeerCert_empty_chain (externallyManaged : Bool)
    (certPool : Option CertPool) (usage : ExtKeyUsage) (role : String) :
    verifyPeerCert [] externallyManaged certPool usage role =
      Except.error "no client certificate provided." := rfl

/-- C7: the Version Mapper sends the four recognized labels to their exact
numeric identifiers 0x0301-0x0304 and everything else — the empty string
included — to the identifier of version 1.2. -/
theorem tlsVersion_mapping :
    TlsVersion VersionTLS10 = 769 ∧
    TlsVersion VersionTLS11 = 770 ∧
    TlsVersion VersionTLS12 = 771 ∧
    TlsVersion VersionTLS13 = 772 ∧
    TlsVersion "" = 771 ∧
    (∀ version : String, version ≠ VersionTLS10 → version ≠ VersionTLS11 →
      version ≠ VersionTLS12 → version ≠ VersionTLS13 →
      TlsVersion version = 771) := by
  refine ⟨rfl, rfl, rfl, rfl, rfl, ?_⟩
  intro version h10 h11 h12 h13
  simp [TlsVersion, tlsVersionTLS12, h10, h11, h12, h13]

/-- C7 witness: an unrecognized label maps to the 1.2 identifier. -/
theorem tlsVersion_mapping_witness : TlsVersion "bogus" = 771 :=
  tlsVersion_mapping.2.2.2.2.2 "bogus" (by decide) (by decide) (by decide)
    (by decide)

/-- C8: cipher name translation is a deterministic, pure, order-preserving
filter-map over the static catalog (secure plus legacy suites): names in
the catalog contribute their identifier in input order, names outside it
are dropped without an error. -/
theorem cipherSuiteIds_catalog_filterMap (names : List String) :
    CipherSuiteIds names = names.filterMap (lookupId idByName) ∧
    (∀ s ∈ cipherSuites ++ insecureCipherSuites,
      lookupId idByName s.Name = some s.ID) ∧
    (∀ name, (∀ s ∈ cipherSuites ++ insecureCipherSuites, s.Name ≠ name) →
      lookupId idByName name = none) := by
  refine ⟨foldl_lookup_eq_filterMap (lookupId idByName) names [], by decide, ?_⟩
  intro name h
  apply lookupId_eq_none_of_forall_ne
  intro p hp
  rcases List.mem_map.mp hp with ⟨s, hs, rfl⟩
  exact h s hs

/-- C8 witness: a mixed list keeps the secure and the legacy names, in
order, and drops the unknown one. -/
theorem cipherSuiteIds_catalog_filterMap_witness :
    CipherSuiteIds ["TLS_AES_128_GCM_SHA256", "bogus",
        "TLS_RSA_WITH_RC4_128_SHA"] = [4865, 5] ∧
    lookupId idByName "bogus" = none :=
  ⟨(cipherSuiteIds_catalog_filterMap ["TLS_AES_128_GCM_SHA256", "bogus",
      "TLS_RSA_WITH_RC4_128_SHA"]).1.trans rfl,
   (cipherSuiteIds_catalog_filterMap []).2.2 "bogus" (by decide)⟩

/-- C9: the Policy Resolver yields the documented default — minimum
version 1.2 (numeric identifier 771) and no explicit cipher restriction —
whenever the cluster resource is absent or carries no TLS substructure,
and yields the resource's TLS substructure otherwise; it is total (no
error path). -/
theorem getTLSConfiguration_defaulting (clusterConfig : ClusterConfig) :
    (clusterConfig.GetConfigFromKubeVirtCR = none →
      getTLSConfiguration clusterConfig =
        { MinTLSVersion := VersionTLS12, Ciphers := [] }) ∧
    (∀ kv, clusterConfig.GetConfigFromKubeVirtCR = some kv →
      kv.tlsConfiguration = none →
      getTLSConfiguration clusterConfig =
        { MinTLSVersion := VersionTLS12, Ciphers := [] }) ∧
    (∀ kv t, clusterConfig.GetConfigFromKubeVirtCR = some kv →
      kv.tlsConfiguration = some t → getTLSConfiguration clusterConfig = t) ∧
    TlsVersion VersionTLS12 = 771 := by
  refine ⟨?_, ?_, ?_, rfl⟩
  · intro h
    simp [getTLSConfiguration, h]
  · intro kv h ht
    simp [getTLSConfiguration, h, ht]
  · intro kv t h ht
    simp [getTLSConfiguration, h, ht]

/-- C9 witness: with no custom resource the resolver returns the default
policy. -/
theorem getTLSConfiguration_defaulting_witness :
    getTLSConfiguration emptyClusterConfig =
      { MinTLSVersion := VersionTLS12, Ciphers := [] } :=
  (getTLSConfiguration_defaulting emptyClusterConfig).1 rfl

/-- C10: in internally-managed mode the intermediate pool passed to chain
verification is nil, so the presented tail is never used: the verifier's
outcome ignores it entirely, and a leaf issued under an untrusted
intermediate fails even when that intermediate is presented — while the
same input succeeds in externally-managed mode. -/
theorem internal_mode_ignores_intermediates :
    (∀ rawIntermediates, createIntermediatePool false rawIntermediates = none) ∧
    (∀ (rawPeer : RawCert) (rest : List RawCert) (certPool : Option CertPool)
        (usage : ExtKeyUsage) (role : String),
      verifyPeerCert (rawPeer :: rest) false certPool usage role =
        verifyPeerCert [rawPeer] false certPool usage role) ∧
    verifyPeerCert [RawCert.wellFormed leafViaIntermediate,
        RawCert.wellFormed interCA] false (some trustPool)
        ExtKeyUsage.clientAuth "client" =
      Except.error
        "could not verify peer certificate: x509: certificate signed by unknown authority" ∧
    verifyPeerCert [RawCert.wellFormed leafViaIntermediate,
        RawCert.wellFormed interCA] true (some trustPool)
        ExtKeyUsage.clientAuth "client" = Except.ok () := by
  refine ⟨fun _ => rfl, ?_, rfl, rfl⟩
  intro rawPeer rest certPool usage role
  cases hp : parseCertificate rawPeer with
  | error e => simp [verifyPeerCert, hp]
  | ok c => simp [verifyPeerCert, hp, createIntermediatePool]

end Webhooks
